import Mathlib

/-!
Shallow embedding of the Go patient CRUD service (src/go-app/main.go):
the in-memory `Store` with its five operations, the collection and item
HTTP handlers, the error-envelope helpers, and the CORS middleware.
Machine `int64` arithmetic is modelled on `Int` with an explicit
two-complement wrap (`wrap64`).
-/

set_option autoImplicit false

/-- The `Patient` struct (main.go lines 13-19). -/
structure Patient where
  id : Int
  fullname : String
  sex : String
  birthdate : String
  address : String
deriving DecidableEq

/-- Payload carried by a success envelope: Go's `interface{}` field holds
either nothing (zero value), a single `Patient`, or a slice of `Patient`. -/
inductive Payload where
  | none
  | patient (p : Patient)
  | patients (l : List Patient)
deriving DecidableEq

/-- The success `Response` envelope (main.go lines 21-25). -/
structure Response where
  code : Int
  status : String
  data : Payload
deriving DecidableEq

/-- The `ResponseError` envelope (main.go lines 27-31). -/
structure ResponseError where
  code : Int
  status : String
  error : String
deriving DecidableEq

/-- The `Store` (main.go lines 33-37): an ordered sequence of patients and
the next-id counter.  The mutex only serialises access and has no effect on
the sequential semantics modelled here. -/
structure Store where
  users : List Patient
  nextID : Int
deriving DecidableEq

/-- Two-complement wrap of Go `int64` arithmetic: `9223372036854775808 = 2^63`
and `18446744073709551616 = 2^64`. -/
def wrap64 (x : Int) : Int :=
  (x + 9223372036854775808) % 18446744073709551616 - 9223372036854775808

/-- `NewStore` (main.go lines 39-41). -/
def NewStore : Store := { users := [], nextID := 1 }

/-- Element-by-element copy of a patient slice, modelling the
`make` + `copy` defensive copy in `Store.List` (main.go lines 46-47). -/
def copySlice : List Patient → List Patient
  | [] => []
  | p :: rest => p :: copySlice rest

/-- `Store.List` (main.go lines 43-53): snapshot of all patients wrapped in
a 200 "Ok" envelope. -/
def Store.List (s : Store) : Response :=
  { code := 200, status := "Ok", data := Payload.patients (copySlice s.users) }

/-- Linear scan of `Store.Get` (main.go lines 58-67): first match wins,
a miss yields the zero `Response` and `false`. -/
def findGet : List Patient → Int → Response × Bool
  | [], _ => ({ code := 0, status := "", data := Payload.none }, false)
  | p :: rest, id =>
      if p.id = id then ({ code := 200, status := "Ok", data := Payload.patient p }, true)
      else findGet rest id

/-- `Store.Get` (main.go lines 55-68). -/
def Store.Get (s : Store) (id : Int) : Response × Bool :=
  findGet s.users id

/-- `Store.Create` (main.go lines 70-81): overwrite the id with the counter,
advance the counter (int64 increment), append, return the 201 envelope. -/
def Store.Create (s : Store) (p : Patient) : Response × Store :=
  let q := { p with id := s.nextID }
  ({ code := 201, status := "Created", data := Payload.patient q },
   { users := s.users ++ [q], nextID := wrap64 (s.nextID + 1) })

/-- Field merge performed by `Store.Update` on a matching record
(main.go lines 88-99): each input field overwrites the stored one exactly
when it is a non-empty string (no trimming happens in the store). -/
def applyUpd (p upd : Patient) : Patient :=
  { p with
    fullname := if upd.fullname ≠ "" then upd.fullname else p.fullname
    sex := if upd.sex ≠ "" then upd.sex else p.sex
    birthdate := if upd.birthdate ≠ "" then upd.birthdate else p.birthdate
    address := if upd.address ≠ "" then upd.address else p.address }

/-- Scan-and-modify loop of `Store.Update` (main.go lines 86-106): the first
record whose id matches is merged in place; returns the updated record and
the new sequence, or `none` when no record matches. -/
def updateFirst (id : Int) (upd : Patient) : List Patient → Option (Patient × List Patient)
  | [] => none
  | p :: rest =>
      if p.id = id then some (applyUpd p upd, applyUpd p upd :: rest)
      else (updateFirst id upd rest).map (fun r => (r.1, p :: r.2))

/-- `Store.Update` (main.go lines 83-108). -/
def Store.Update (s : Store) (id : Int) (upd : Patient) : (Response × Bool) × Store :=
  match updateFirst id upd s.users with
  | some (q, l) => (({ code := 200, status := "Ok", data := Payload.patient q }, true),
                    { s with users := l })
  | none => (({ code := 0, status := "", data := Payload.none }, false), s)

/-- Scan-and-remove loop of `Store.Delete` (main.go lines 113-118): removes
the first record whose id matches, keeping the rest in order. -/
def deleteFirst (id : Int) : List Patient → Option (List Patient)
  | [] => none
  | p :: rest =>
      if p.id = id then some rest
      else (deleteFirst id rest).map (fun l => p :: l)

/-- `Store.Delete` (main.go lines 110-120). -/
def Store.Delete (s : Store) (id : Int) : Bool × Store :=
  match deleteFirst id s.users with
  | some l => (true, { s with users := l })
  | none => (false, s)

/-- White-space predicate of Go `unicode.IsSpace`: tab, newline, vertical
tab, form feed, carriage return, space, next-line, no-break space, and the
Unicode White_Space code points. -/
def goIsSpace (c : Char) : Bool :=
  c.toNat = 9 || c.toNat = 10 || c.toNat = 11 || c.toNat = 12 || c.toNat = 13 ||
  c.toNat = 32 || c.toNat = 133 || c.toNat = 160 || c.toNat = 5760 ||
  (8192 ≤ c.toNat && c.toNat ≤ 8202) || c.toNat = 8232 || c.toNat = 8233 ||
  c.toNat = 8239 || c.toNat = 8287 || c.toNat = 12288

/-- Go `strings.TrimSpace`: drop white space from both ends. -/
def trimSpace (s : String) : String :=
  ⟨((s.data.dropWhile goIsSpace).reverse.dropWhile goIsSpace).reverse⟩

/-- Leading-match helper for the Go function that removes a leading literal
from a string: returns the remainder when the first argument is an initial
segment of the second, else `none`. -/
def stripLead : List Char → List Char → Option (List Char)
  | [], s => some s
  | _ :: _, [] => none
  | c :: pre, d :: s => if c = d then stripLead pre s else none

/-- The Go strings helper that removes `pre` from the front of `s` when
present and otherwise returns `s` unchanged, as used on the item route
(main.go line 181). -/
def goTrimLead (s pre : String) : String :=
  match stripLead pre.data s.data with
  | some rest => ⟨rest⟩
  | none => s

/-- The Go strings helper that removes `suf` from the end of `s` when
present and otherwise returns `s` unchanged, as used on the item route
(main.go line 182). -/
def goTrimTrail (s suf : String) : String :=
  match stripLead suf.data.reverse s.data.reverse with
  | some rest => ⟨rest.reverse⟩
  | none => s

/-- Go `strconv.ParseInt(s, 10, 64)`: optional sign, one or more decimal
digits, value within the signed 64-bit range; every other input errors
(modelled as `none`).  A range overflow also errors. -/
def parseInt64 (s : String) : Option Int :=
  let step : (Int × List Char) :=
    match s.data with
    | '+' :: rest => (1, rest)
    | '-' :: rest => (-1, rest)
    | cs => (1, cs)
  let sign := step.1
  let digits := step.2
  if digits = [] then none
  else if digits.all (fun c => c.isDigit) then
    let n : Nat := digits.foldl (fun acc c => acc * 10 + (c.toNat - 48)) 0
    let v : Int := sign * n
    if -9223372036854775808 ≤ v ∧ v ≤ 9223372036854775807 then some v else none
  else none

/-- Go `net/http.StatusText`: the standard reason phrase for an HTTP status
code, or the empty string when the code has no registered phrase. -/
def statusText (code : Int) : String :=
  if code = 100 then "Continue"
  else if code = 101 then "Switching Protocols"
  else if code = 102 then "Processing"
  else if code = 103 then "Early Hints"
  else if code = 200 then "OK"
  else if code = 201 then "Created"
  else if code = 202 then "Accepted"
  else if code = 203 then "Non-Authoritative Information"
  else if code = 204 then "No Content"
  else if code = 205 then "Reset Content"
  else if code = 206 then "Partial Content"
  else if code = 207 then "Multi-Status"
  else if code = 208 then "Already Reported"
  else if code = 226 then "IM Used"
  else if code = 300 then "Multiple Choices"
  else if code = 301 then "Moved Permanently"
  else if code = 302 then "Found"
  else if code = 303 then "See Other"
  else if code = 304 then "Not Modified"
  else if code = 305 then "Use Proxy"
  else if code = 307 then "Temporary Redirect"
  else if code = 308 then "Permanent Redirect"
  else if code = 400 then "Bad Request"
  else if code = 401 then "Unauthorized"
  else if code = 402 then "Payment Required"
  else if code = 403 then "Forbidden"
  else if code = 404 then "Not Found"
  else if code = 405 then "Method Not Allowed"
  else if code = 406 then "Not Acceptable"
  else if code = 407 then "Proxy Authentication Required"
  else if code = 408 then "Request Timeout"
  else if code = 409 then "Conflict"
  else if code = 410 then "Gone"
  else if code = 411 then "Length Required"
  else if code = 412 then "Precondition Failed"
  else if code = 413 then "Request Entity Too Large"
  else if code = 414 then "Request URI Too Long"
  else if code = 415 then "Unsupported Media Type"
  else if code = 416 then "Requested Range Not Satisfiable"
  else if code = 417 then "Expectation Failed"
  else if code = 418 then "I\x27m a teapot"
  else if code = 421 then "Misdirected Request"
  else if code = 422 then "Unprocessable Entity"
  else if code = 423 then "Locked"
  else if code = 424 then "Failed Dependency"
  else if code = 425 then "Too Early"
  else if code = 426 then "Upgrade Required"
  else if code = 428 then "Precondition Required"
  else if code = 429 then "Too Many Requests"
  else if code = 431 then "Request Header Fields Too Large"
  else if code = 451 then "Unavailable For Legal Reasons"
  else if code = 500 then "Internal Server Error"
  else if code = 501 then "Not Implemented"
  else if code = 502 then "Bad Gateway"
  else if code = 503 then "Service Unavailable"
  else if code = 504 then "Gateway Timeout"
  else if code = 505 then "HTTP Version Not Supported"
  else if code = 506 then "Variant Also Negotiates"
  else if code = 507 then "Insufficient Storage"
  else if code = 508 then "Loop Detected"
  else if code = 510 then "Not Extended"
  else if code = 511 then "Network Authentication Required"
  else ""

/-- Body written on a response: nothing, a success envelope, or an error
envelope (the JSON serialisation itself is not modelled). -/
inductive Body where
  | empty
  | json (r : Response)
  | jsonErr (e : ResponseError)
deriving DecidableEq

/-- Status line and body produced by one handler invocation. -/
structure HttpResult where
  status : Int
  body : Body
deriving DecidableEq

/-- `writeJSON` (main.go lines 123-127): write the given status code and
serialise the value (the Content-Type header is uniform and not modelled
per call). -/
def writeJSON (code : Int) (b : Body) : HttpResult :=
  { status := code, body := b }

/-- `newResponseError` (main.go lines 129-135). -/
def newResponseError (code : Int) (msg : String) : ResponseError :=
  let status := statusText code
  let status := if status = "" then "Error" else status
  { code := code, status := status, error := msg }

/-- `writeError` (main.go lines 137-145): default a zero code to 500, fill
in a missing status label, then write the envelope under its own code. -/
def writeError (e : ResponseError) : HttpResult :=
  let e1 := if e.code = 0 then { e with code := 500 } else e
  let e2 := if e1.status = "" then { e1 with status := statusText e1.code } else e1
  writeJSON e2.code (Body.jsonErr e2)

/-- Required-field check of the POST handler (main.go line 166): true when
any of the four fields is empty after trimming. -/
def anyRequiredEmpty (p : Patient) : Bool :=
  trimSpace p.fullname = "" || trimSpace p.sex = "" ||
  trimSpace p.birthdate = "" || trimSpace p.address = ""

/-- All-empty check of the PUT handler (main.go line 204): true when every
one of the four fields is empty after trimming. -/
def allFieldsEmpty (p : Patient) : Bool :=
  trimSpace p.fullname = "" && trimSpace p.sex = "" &&
  trimSpace p.birthdate = "" && trimSpace p.address = ""

/-- Collection handler for `/patients` (main.go lines 155-177).  The JSON
decode of the request body is modelled by an `Option Patient` argument:
`none` is a decode error, `some p` the decoded struct. -/
def patientsCollectionHandler (s : Store) (method : String) (body : Option Patient) :
    HttpResult × Store :=
  if method = "GET" then
    (writeJSON 200 (Body.json (Store.List s)), s)
  else if method = "POST" then
    match body with
    | Option.none => (writeError (newResponseError 400 "invalid JSON body"), s)
    | Option.some p =>
        if anyRequiredEmpty p then
          (writeError (newResponseError 400 "fullname, sex, birthdate and address are required"), s)
        else
          (writeJSON 201 (Body.json (Store.Create s p).1), (Store.Create s p).2)
  else
    (writeError (newResponseError 405 "method not allowed"), s)

/-- Id segment of the item route (main.go lines 181-182): path with the
literal route front removed and one trailing slash removed. -/
def pathIdStr (path : String) : String :=
  goTrimTrail (goTrimLead path "/patients/") "/"

/-- Item handler for `/patients/{id}` (main.go lines 179-226), with the
request body decode modelled as in `patientsCollectionHandler`. -/
def patientsItemHandler (s : Store) (method path : String) (body : Option Patient) :
    HttpResult × Store :=
  match parseInt64 (pathIdStr path) with
  | Option.none => (writeError (newResponseError 400 "invalid id"), s)
  | Option.some id =>
      if pathIdStr path = "" then
        (writeError (newResponseError 400 "invalid id"), s)
      else if method = "GET" then
        if (Store.Get s id).2 then (writeJSON 200 (Body.json (Store.Get s id).1), s)
        else (writeError (newResponseError 404 "patient not found"), s)
      else if method = "PUT" then
        match body with
        | Option.none => (writeError (newResponseError 400 "invalid JSON body"), s)
        | Option.some upd =>
            if allFieldsEmpty upd then
              (writeError (newResponseError 400 "at least one field required to update"), s)
            else if (Store.Update s id upd).1.2 then
              (writeJSON 200 (Body.json (Store.Update s id upd).1.1), (Store.Update s id upd).2)
            else
              (writeError (newResponseError 404 "patient not found"), (Store.Update s id upd).2)
      else if method = "DELETE" then
        if (Store.Delete s id).1 then
          ({ status := 204, body := Body.empty }, (Store.Delete s id).2)
        else
          (writeError (newResponseError 404 "patient not found"), (Store.Delete s id).2)
      else
        (writeError (newResponseError 405 "method not allowed"), s)

/-- Response of the middleware layer: the headers it sets plus the status
line and body of whatever was written. -/
structure HttpResponse where
  headers : List (String × String)
  status : Int
  body : Body
deriving DecidableEq

/-- The three cross-origin headers set by `corsMiddleware`
(main.go lines 278-280). -/
def corsHeaders : List (String × String) :=
  [("Access-Control-Allow-Origin", "*"),
   ("Access-Control-Allow-Methods", "GET, POST, PUT, DELETE, OPTIONS"),
   ("Access-Control-Allow-Headers", "Content-Type, Authorization")]

/-- `corsMiddleware` (main.go lines 276-287): always set the three headers;
answer OPTIONS directly with 204 and no body, forward everything else to
the wrapped router `next` (modelled as a function from method and path to
the result it writes). -/
def corsMiddleware (next : String → String → HttpResult) (method path : String) :
    HttpResponse :=
  if method = "OPTIONS" then
    { headers := corsHeaders, status := 204, body := Body.empty }
  else
    { headers := corsHeaders, status := (next method path).status,
      body := (next method path).body }

/-- One store mutation, for reasoning about arbitrary interleavings of
Create and Delete calls. -/
inductive Op where
  | create (p : Patient)
  | delete (id : Int)

/-- Number of Create operations in a sequence. -/
def countCreates : List Op → Nat
  | [] => 0
  | Op.create _ :: rest => countCreates rest + 1
  | Op.delete _ :: rest => countCreates rest

/-- Id carried by the record inside a Create envelope. -/
def createdId (r : Response) : Int :=
  match r.data with
  | Payload.patient p => p.id
  | _ => 0

/-- Run a sequence of store operations, collecting the id assigned by each
Create in order. -/
def runOps : Store → List Op → Store × List Int
  | s, [] => (s, [])
  | s, Op.create p :: rest =>
      let r2 := runOps (Store.Create s p).2 rest
      (r2.1, createdId (Store.Create s p).1 :: r2.2)
  | s, Op.delete id :: rest => runOps (Store.Delete s id).2 rest

/-- The list `[n, n+1, ..., n+k-1]`. -/
def idsFrom (n : Int) : Nat → List Int
  | 0 => []
  | k + 1 => n :: idsFrom (n + 1) k

lemma copySlice_eq (l : List Patient) : copySlice l = l := by
  induction l with
  | nil => rfl
  | cons p t ih => simp [copySlice, ih]

lemma writeError_nre_400 (msg : String) :
    writeError (newResponseError 400 msg) =
      { status := 400, body := Body.jsonErr { code := 400, status := "Bad Request", error := msg } } := rfl

lemma writeError_nre_404 (msg : String) :
    writeError (newResponseError 404 msg) =
      { status := 404, body := Body.jsonErr { code := 404, status := "Not Found", error := msg } } := rfl

lemma writeError_nre_405 (msg : String) :
    writeError (newResponseError 405 msg) =
      { status := 405, body := Body.jsonErr { code := 405, status := "Method Not Allowed", error := msg } } := rfl

lemma parseInt64_empty : parseInt64 "" = Option.none := rfl

/-- C3: on the item route, an id segment that is empty or does not parse as
a base-10 64-bit integer yields a 400 "invalid id" error for every method,
leaving the store untouched (so in particular never a 404). -/
theorem c3_invalid_id_rejected (s : Store) (method path : String) (body : Option Patient)
    (h : parseInt64 (pathIdStr path) = Option.none ∨ pathIdStr path = "") :
    patientsItemHandler s method path body =
      ({ status := 400,
         body := Body.jsonErr { code := 400, status := "Bad Request", error := "invalid id" } }, s) := by
  have hid : parseInt64 (pathIdStr path) = Option.none := by
    rcases h with h | h
    · exact h
    · rw [h, parseInt64_empty]
  simp [patientsItemHandler, hid, writeError_nre_400]

/-- C4: POST on the collection route: a JSON decode failure yields 400
"invalid JSON body", a trimmed-empty required field yields 400
"fullname, sex, birthdate and address are required", and in both cases the
store is unchanged (Create is not reached); otherwise the response is 201
carrying the Create envelope with the assigned id. -/
theorem c4_post_validation (s : Store) (body : Option Patient) :
    (body = Option.none →
      patientsCollectionHandler s "POST" body =
        ({ status := 400,
           body := Body.jsonErr { code := 400, status := "Bad Request", error := "invalid JSON body" } }, s)) ∧
    (∀ p : Patient, body = Option.some p → anyRequiredEmpty p = true →
      patientsCollectionHandler s "POST" body =
        ({ status := 400,
           body := Body.jsonErr { code := 400, status := "Bad Request",
                                  error := "fullname, sex, birthdate and address are required" } }, s)) ∧
    (∀ p : Patient, body = Option.some p → anyRequiredEmpty p = false →
      patientsCollectionHandler s "POST" body =
        ({ status := 201,
           body := Body.json { code := 201, status := "Created",
                               data := Payload.patient { p with id := s.nextID } } },
         (Store.Create s p).2)) := by
  refine ⟨?_, ?_, ?_⟩
  · intro h
    subst h
    simp [patientsCollectionHandler, writeError_nre_400]
  · intro p h hempty
    subst h
    simp [patientsCollectionHandler, hempty, writeError_nre_400]
  · intro p h hfull
    subst h
    simp [patientsCollectionHandler, hfull, Store.Create, writeJSON]

/-- C6: Store.List always returns a 200 "Ok" envelope holding a structural
copy of the current sequence in store order; the copy equals the sequence
element for element, and a Create performed afterwards changes only the new
store's listing while the previously taken snapshot (a value of the old
state) is what it always was. -/
theorem c6_list_snapshot (s : Store) (p : Patient) :
    Store.List s = { code := 200, status := "Ok", data := Payload.patients s.users } ∧
    copySlice s.users = s.users ∧
    Store.List (Store.Create s p).2 =
      { code := 200, status := "Ok",
        data := Payload.patients (s.users ++ [{ p with id := s.nextID }]) } ∧
    (Store.List s).data = Payload.patients s.users := by
  refine ⟨?_, copySlice_eq s.users, ?_, ?_⟩
  · simp [Store.List, copySlice_eq]
  · simp [Store.List, Store.Create, copySlice_eq]
  · simp [Store.List, copySlice_eq]

/-- C7: a PUT on the item route whose decoded body has all four fields
empty after trimming yields 400 "at least one field required to update" and
leaves the store unmodified (Store.Update is not reached). -/
theorem c7_put_all_empty_rejected (s : Store) (path : String) (id : Int) (upd : Patient)
    (hid : parseInt64 (pathIdStr path) = Option.some id)
    (h : allFieldsEmpty upd = true) :
    patientsItemHandler s "PUT" path (Option.some upd) =
      ({ status := 400,
         body := Body.jsonErr { code := 400, status := "Bad Request",
                                error := "at least one field required to update" } }, s) := by
  have hne : pathIdStr path ≠ "" := by
    intro he
    rw [he, parseInt64_empty] at hid
    exact Option.noConfusion hid
  simp [patientsItemHandler, hid, hne, h, writeError_nre_400]

/-- C9: the CORS middleware answers every OPTIONS request with 204, no
body and the three cross-origin headers, independently of the wrapped
router; every other request is forwarded and its response carries the same
three headers. -/
theorem c9_cors_preflight (next next2 : String → String → HttpResult) (method path : String)
    (h : method ≠ "OPTIONS") :
    corsMiddleware next "OPTIONS" path =
      { headers := [("Access-Control-Allow-Origin", "*"),
                    ("Access-Control-Allow-Methods", "GET, POST, PUT, DELETE, OPTIONS"),
                    ("Access-Control-Allow-Headers", "Content-Type, Authorization")],
        status := 204, body := Body.empty } ∧
    corsMiddleware next "OPTIONS" path = corsMiddleware next2 "OPTIONS" path ∧
    corsMiddleware next method path =
      { headers := corsHeaders, status := (next method path).status,
        body := (next method path).body } := by
  refine ⟨rfl, rfl, ?_⟩
  simp [corsMiddleware, h]

/-- C10: a valid POST stores and returns the decoded field values exactly
as supplied, untrimmed; only the id is replaced by the counter value. -/
theorem c10_post_preserves_raw_fields (s : Store) (p : Patient)
    (h : anyRequiredEmpty p = false) :
    patientsCollectionHandler s "POST" (Option.some p) =
      ({ status := 201,
         body := Body.json { code := 201, status := "Created",
                             data := Payload.patient { id := s.nextID, fullname := p.fullname,
                                                       sex := p.sex, birthdate := p.birthdate,
                                                       address := p.address } } },
       { users := s.users ++ [{ id := s.nextID, fullname := p.fullname, sex := p.sex,
                                birthdate := p.birthdate, address := p.address }],
         nextID := wrap64 (s.nextID + 1) }) := by
  obtain ⟨pid, pf, px, pb, pa⟩ := p
  simp [patientsCollectionHandler, h, Store.Create, writeJSON]

lemma nre_status_ne_empty (code : Int) (msg : String) :
    (newResponseError code msg).status ≠ "" := by
  unfold newResponseError
  by_cases h : statusText code = "" <;> simp [h]

/-- C8 counterexample: built through the error-building rule, a zero code
is written with code 500 but with status label "Error", not the standard
phrase "Internal Server Error" that the claim announces. -/
theorem c8_counterexample :
    writeError (newResponseError 0 "m") =
      { status := 500, body := Body.jsonErr { code := 500, status := "Error", error := "m" } } ∧
    ("Error" : String) ≠ "Internal Server Error" := by
  constructor
  · rfl
  · decide

/-- C8 (amended): `newResponseError` labels an envelope with the standard
reason phrase of its code, or the literal "Error" when the code has no
phrase; `writeError` defaults a zero code to 500 but keeps the label
"Error" already chosen for it (it only fills in an empty label), and writes
every non-zero coded envelope unchanged under its own code. -/
theorem c8_error_envelope_rule (code : Int) (msg : String) :
    (statusText code ≠ "" →
      newResponseError code msg = { code := code, status := statusText code, error := msg }) ∧
    (statusText code = "" →
      newResponseError code msg = { code := code, status := "Error", error := msg }) ∧
    (code = 0 →
      writeError (newResponseError code msg) =
        { status := 500, body := Body.jsonErr { code := 500, status := "Error", error := msg } }) ∧
    (code ≠ 0 →
      writeError (newResponseError code msg) =
        { status := code, body := Body.jsonErr (newResponseError code msg) }) := by
  refine ⟨?_, ?_, ?_, ?_⟩
  · intro h
    simp [newResponseError, h]
  · intro h
    simp [newResponseError, h]
  · intro h
    subst h
    rfl
  · intro h
    simp [writeError, writeJSON, newResponseError, h]
    by_cases hs : statusText code = "" <;> simp [hs]

/-- C8 witness: concrete instances of the error-building rule — a known
code (404), an unknown code (299), and the defaulted zero code. -/
theorem c8_witness :
    newResponseError 404 "patient not found" =
      { code := 404, status := "Not Found", error := "patient not found" } ∧
    newResponseError 299 "x" = { code := 299, status := "Error", error := "x" } ∧
    writeError (newResponseError 0 "boom") =
      { status := 500, body := Body.jsonErr { code := 500, status := "Error", error := "boom" } } ∧
    writeError (newResponseError 404 "patient not found") =
      { status := 404,
        body := Body.jsonErr { code := 404, status := "Not Found", error := "patient not found" } } := by
  refine ⟨?_, ?_, ?_, ?_⟩
  · exact ((c8_error_envelope_rule 404 "patient not found").1 (by decide)).trans (by decide)
  · exact ((c8_error_envelope_rule 299 "x").2.1 (by decide)).trans (by decide)
  · exact (c8_error_envelope_rule 0 "boom").2.2.1 rfl
  · exact ((c8_error_envelope_rule 404 "patient not found").2.2.2 (by decide)).trans (by decide)

lemma updateFirst_not_found (id : Int) (upd : Patient) :
    ∀ l : List Patient, (∀ p ∈ l, p.id ≠ id) → updateFirst id upd l = Option.none := by
  intro l
  induction l with
  | nil => intro _; rfl
  | cons a t ih =>
      intro h
      have ha : a.id ≠ id := h a (List.mem_cons_self a t)
      simp [updateFirst, ha, ih (fun p hp => h p (List.mem_cons_of_mem a hp))]

lemma updateFirst_found (id : Int) (upd : Patient) :
    ∀ (l1 : List Patient) (p : Patient) (l2 : List Patient), p.id = id →
      (∀ q ∈ l1, q.id ≠ id) →
      updateFirst id upd (l1 ++ p :: l2) =
        Option.some (applyUpd p upd, l1 ++ applyUpd p upd :: l2) := by
  intro l1
  induction l1 with
  | nil => intro p l2 hp _; simp [updateFirst, hp]
  | cons a t ih =>
      intro p l2 hp h
      have ha : a.id ≠ id := h a (List.mem_cons_self a t)
      simp [updateFirst, ha, ih p l2 hp (fun q hq => h q (List.mem_cons_of_mem a hq))]

/-- C1 counterexample: with a stored record of sex "F", an update whose sex
field is the whitespace-only string " " (empty after trimming, so the claim
says the stored value must be kept) in fact overwrites the stored sex with
" ": the store applies each field that is non-empty *without* trimming. -/
theorem c1_counterexample :
    trimSpace " " = "" ∧
    (Store.Update { users := [{ id := 1, fullname := "Alice", sex := "F",
                                birthdate := "1990-01-01", address := "123 A St" }],
                    nextID := 2 } 1
       { id := 0, fullname := "Bob", sex := " ", birthdate := "", address := "" }).2.users =
      [{ id := 1, fullname := "Bob", sex := " ", birthdate := "1990-01-01",
         address := "123 A St" }] := by
  constructor
  · rfl
  · rfl

/-- C1 (amended): Store.Update finds the first record matching the id and
overwrites each of its four fields exactly when the corresponding input
field is a non-empty string — no trimming is applied, so a whitespace-only
input overwrites with the whitespace itself and only an exactly-empty input
keeps the stored value; it returns found=true with the updated record, and
found=false with the store untouched when no record matches. -/
theorem c1_update_overwrites_nonempty_raw (s : Store) (id : Int) (upd : Patient) :
    ((∀ p ∈ s.users, p.id ≠ id) →
      Store.Update s id upd =
        (({ code := 0, status := "", data := Payload.none }, false), s)) ∧
    (∀ (l1 : List Patient) (p : Patient) (l2 : List Patient),
      s.users = l1 ++ p :: l2 → p.id = id → (∀ q ∈ l1, q.id ≠ id) →
      Store.Update s id upd =
        (({ code := 200, status := "Ok", data := Payload.patient (applyUpd p upd) }, true),
         { users := l1 ++ applyUpd p upd :: l2, nextID := s.nextID })) ∧
    (∀ p : Patient,
      (applyUpd p upd).fullname = (if upd.fullname = "" then p.fullname else upd.fullname) ∧
      (applyUpd p upd).sex = (if upd.sex = "" then p.sex else upd.sex) ∧
      (applyUpd p upd).birthdate = (if upd.birthdate = "" then p.birthdate else upd.birthdate) ∧
      (applyUpd p upd).address = (if upd.address = "" then p.address else upd.address) ∧
      (applyUpd p upd).id = p.id) := by
  refine ⟨?_, ?_, ?_⟩
  · intro h
    unfold Store.Update
    rw [updateFirst_not_found id upd s.users h]
  · intro l1 p l2 hs hp h
    unfold Store.Update
    rw [hs, updateFirst_found id upd l1 p l2 hp h]
  · intro p
    refine ⟨?_, ?_, ?_, ?_, rfl⟩ <;> simp [applyUpd, ite_not]

/-- C1 witness: updating only the fullname of the seeded Alice record via
the amended theorem leaves sex, birthdate and address unchanged. -/
theorem c1_witness :
    Store.Update { users := [{ id := 1, fullname := "Alice Example", sex := "F",
                               birthdate := "1990-01-01", address := "123 A St" }],
                   nextID := 2 } 1
      { id := 0, fullname := "Alicia", sex := "", birthdate := "", address := "" } =
      (({ code := 200, status := "Ok",
          data := Payload.patient { id := 1, fullname := "Alicia", sex := "F",
                                    birthdate := "1990-01-01", address := "123 A St" } }, true),
       { users := [{ id := 1, fullname := "Alicia", sex := "F", birthdate := "1990-01-01",
                     address := "123 A St" }],
         nextID := 2 }) := by
  have h := (c1_update_overwrites_nonempty_raw
      { users := [{ id := 1, fullname := "Alice Example", sex := "F",
                    birthdate := "1990-01-01", address := "123 A St" }], nextID := 2 } 1
      { id := 0, fullname := "Alicia", sex := "", birthdate := "", address := "" }).2.1
      [] { id := 1, fullname := "Alice Example", sex := "F", birthdate := "1990-01-01",
           address := "123 A St" } [] rfl rfl (by simp)
  exact h.trans (by rfl)

lemma deleteFirst_not_found (id : Int) :
    ∀ l : List Patient, (∀ p ∈ l, p.id ≠ id) → deleteFirst id l = Option.none := by
  intro l
  induction l with
  | nil => intro _; rfl
  | cons a t ih =>
      intro h
      have ha : a.id ≠ id := h a (List.mem_cons_self a t)
      simp [deleteFirst, ha, ih (fun p hp => h p (List.mem_cons_of_mem a hp))]

lemma deleteFirst_found (id : Int) :
    ∀ (l1 : List Patient) (p : Patient) (l2 : List Patient), p.id = id →
      (∀ q ∈ l1, q.id ≠ id) →
      deleteFirst id (l1 ++ p :: l2) = Option.some (l1 ++ l2) := by
  intro l1
  induction l1 with
  | nil => intro p l2 hp _; simp [deleteFirst, hp]
  | cons a t ih =>
      intro p l2 hp h
      have ha : a.id ≠ id := h a (List.mem_cons_self a t)
      simp [deleteFirst, ha, ih p l2 hp (fun q hq => h q (List.mem_cons_of_mem a hq))]

lemma findGet_not_found (id : Int) :
    ∀ l : List Patient, (∀ p ∈ l, p.id ≠ id) →
      findGet l id = ({ code := 0, status := "", data := Payload.none }, false) := by
  intro l
  induction l with
  | nil => intro _; rfl
  | cons a t ih =>
      intro h
      have ha : a.id ≠ id := h a (List.mem_cons_self a t)
      simp [findGet, ha, ih (fun p hp => h p (List.mem_cons_of_mem a hp))]

/-- C5: Store.Delete removes exactly the (unique) record with the given id,
keeps every other record in its relative order, and returns true, after
which Get on that id reports not-found with the zero envelope; when no
record matches, it returns false and the sequence is unchanged. -/
theorem c5_delete_semantics (s : Store) (id : Int) :
    ((∀ p ∈ s.users, p.id ≠ id) → Store.Delete s id = (false, s)) ∧
    (∀ (l1 : List Patient) (p : Patient) (l2 : List Patient),
      s.users = l1 ++ p :: l2 → p.id = id → (∀ q ∈ l1, q.id ≠ id) →
      Store.Delete s id = (true, { users := l1 ++ l2, nextID := s.nextID }) ∧
      ((∀ q ∈ l2, q.id ≠ id) →
        Store.Get { users := l1 ++ l2, nextID := s.nextID } id =
          ({ code := 0, status := "", data := Payload.none }, false))) := by
  constructor
  · intro h
    unfold Store.Delete
    rw [deleteFirst_not_found id s.users h]
  · intro l1 p l2 hs hp h1
    constructor
    · unfold Store.Delete
      rw [hs, deleteFirst_found id l1 p l2 hp h1]
    · intro h2
      unfold Store.Get
      apply findGet_not_found
      intro q hq
      rcases List.mem_append.mp hq with hq1 | hq2
      · exact h1 q hq1
      · exact h2 q hq2

/-- C5 witness: deleting id 2 from records with ids 1, 2, 3 yields the
records 1 and 3 in order and a subsequent Get(2) reports not-found. -/
theorem c5_witness :
    Store.Delete { users := [{ id := 1, fullname := "A", sex := "F", birthdate := "d1",
                               address := "a1" },
                             { id := 2, fullname := "B", sex := "M", birthdate := "d2",
                               address := "a2" },
                             { id := 3, fullname := "C", sex := "F", birthdate := "d3",
                               address := "a3" }],
                   nextID := 4 } 2 =
      (true, { users := [{ id := 1, fullname := "A", sex := "F", birthdate := "d1",
                           address := "a1" },
                         { id := 3, fullname := "C", sex := "F", birthdate := "d3",
                           address := "a3" }],
               nextID := 4 }) ∧
    Store.Get { users := [{ id := 1, fullname := "A", sex := "F", birthdate := "d1",
                            address := "a1" },
                          { id := 3, fullname := "C", sex := "F", birthdate := "d3",
                            address := "a3" }],
                nextID := 4 } 2 =
      ({ code := 0, status := "", data := Payload.none }, false) := by
  have h := (c5_delete_semantics
      { users := [{ id := 1, fullname := "A", sex := "F", birthdate := "d1", address := "a1" },
                  { id := 2, fullname := "B", sex := "M", birthdate := "d2", address := "a2" },
                  { id := 3, fullname := "C", sex := "F", birthdate := "d3", address := "a3" }],
        nextID := 4 } 2).2
      [{ id := 1, fullname := "A", sex := "F", birthdate := "d1", address := "a1" }]
      { id := 2, fullname := "B", sex := "M", birthdate := "d2", address := "a2" }
      [{ id := 3, fullname := "C", sex := "F", birthdate := "d3", address := "a3" }]
      rfl rfl (by decide)
  exact ⟨h.1, h.2 (by decide)⟩

lemma wrap64_small (x : Int) (h1 : -9223372036854775808 ≤ x)
    (h2 : x < 9223372036854775808) : wrap64 x = x := by
  unfold wrap64
  omega

lemma delete_preserves_nextID (s : Store) (id : Int) :
    (Store.Delete s id).2.nextID = s.nextID := by
  unfold Store.Delete
  split <;> rfl

lemma runOps_zero_creates :
    ∀ (ops : List Op) (s : Store), countCreates ops = 0 → (runOps s ops).2 = [] := by
  intro ops
  induction ops with
  | nil => intro s _; rfl
  | cons o t ih =>
      cases o with
      | create p => intro s h; simp [countCreates] at h
      | delete id => intro s h; exact ih (Store.Delete s id).2 h

lemma runOps_ids :
    ∀ (ops : List Op) (s : Store), 0 < s.nextID →
      s.nextID + countCreates ops ≤ 9223372036854775808 →
      (runOps s ops).2 = idsFrom s.nextID (countCreates ops) := by
  intro ops
  induction ops with
  | nil => intro s _ _; rfl
  | cons o t ih =>
      cases o with
      | delete id =>
          intro s h1 h2
          have hn := delete_preserves_nextID s id
          have := ih (Store.Delete s id).2 (by rw [hn]; exact h1) (by rw [hn]; exact h2)
          show (runOps (Store.Delete s id).2 t).2 = idsFrom s.nextID (countCreates t)
          rw [this, hn]
      | create p =>
          intro s h1 h2
          have hcc : countCreates (Op.create p :: t) = countCreates t + 1 := rfl
          rw [hcc] at h2
          show s.nextID :: (runOps (Store.Create s p).2 t).2 =
            s.nextID :: idsFrom (s.nextID + 1) (countCreates t)
          congr 1
          by_cases hk : countCreates t = 0
          · rw [hk, runOps_zero_creates t _ hk]
            rfl
          · have hnext : (Store.Create s p).2.nextID = s.nextID + 1 := by
              show wrap64 (s.nextID + 1) = s.nextID + 1
              apply wrap64_small <;> omega
            have := ih (Store.Create s p).2 (by rw [hnext]; omega) (by rw [hnext]; omega)
            rw [this, hnext]

lemma idsFrom_mem :
    ∀ (k : Nat) (n i : Int), i ∈ idsFrom n k → n ≤ i ∧ i < n + k := by
  intro k
  induction k with
  | zero => intro n i h; simp [idsFrom] at h
  | succ m ih =>
      intro n i h
      rw [idsFrom] at h
      rcases List.mem_cons.mp h with h | h
      · subst h; omega
      · have := ih (n + 1) i h
        omega

lemma idsFrom_nodup : ∀ (k : Nat) (n : Int), (idsFrom n k).Nodup := by
  intro k
  induction k with
  | zero => intro n; simp [idsFrom]
  | succ m ih =>
      intro n
      rw [idsFrom]
      refine List.nodup_cons.mpr ⟨?_, ih (n + 1)⟩
      intro h
      have := idsFrom_mem m (n + 1) n h
      omega

/-- C2: starting from a fresh store, every interleaving of Create and
Delete operations assigns the ids 1, 2, ..., N to the N Creates in order
(for any N within the int64 counter range); the assigned ids are strictly
positive and pairwise distinct (deletions cause no reuse and no
gap-filling), and Create ignores the id supplied on its argument. -/
theorem c2_create_ids_monotonic (ops : List Op)
    (h : countCreates ops ≤ 9223372036854775807) :
    (runOps NewStore ops).2 = idsFrom 1 (countCreates ops) ∧
    (∀ i ∈ (runOps NewStore ops).2, 0 < i) ∧
    ((runOps NewStore ops).2).Nodup ∧
    (∀ (s : Store) (p : Patient) (j : Int),
      Store.Create s { p with id := j } = Store.Create s p) := by
  have hmain : (runOps NewStore ops).2 = idsFrom 1 (countCreates ops) := by
    apply runOps_ids ops NewStore
    · decide
    · show (1 : Int) + countCreates ops ≤ 9223372036854775808
      omega
  refine ⟨hmain, ?_, ?_, ?_⟩
  · intro i hi
    rw [hmain] at hi
    have := idsFrom_mem (countCreates ops) 1 i hi
    omega
  · rw [hmain]
    exact idsFrom_nodup (countCreates ops) 1
  · intro s p j
    rfl

/-- C2 witness: the two seed records then a deletion and a third creation
receive ids 1, 2, 3 in order. -/
theorem c2_witness :
    (runOps NewStore
      [Op.create { id := 0, fullname := "Alice Example", sex := "F",
                   birthdate := "1990-01-01", address := "123 A St" },
       Op.create { id := 0, fullname := "Bob Example", sex := "M",
                   birthdate := "1988-05-05", address := "456 B Ave" },
       Op.delete 1,
       Op.create { id := 99, fullname := "Carol", sex := "F",
                   birthdate := "1991-02-03", address := "789 C Rd" }]).2 = [1, 2, 3] := by
  exact (c2_create_ids_monotonic _ (by decide)).1.trans (by decide)

/-- C3 witness: a GET on "/patients/abc" is answered 400 "invalid id" with
the store unchanged. -/
theorem c3_witness :
    patientsItemHandler NewStore "GET" "/patients/abc" Option.none =
      ({ status := 400,
         body := Body.jsonErr { code := 400, status := "Bad Request", error := "invalid id" } },
       NewStore) :=
  c3_invalid_id_rejected NewStore "GET" "/patients/abc" Option.none (Or.inl (by decide))

/-- C4 witness: a POST with an undecodable body, one with a blank fullname,
and one with all fields present, on a concrete store. -/
theorem c4_witness :
    patientsCollectionHandler NewStore "POST" Option.none =
      ({ status := 400,
         body := Body.jsonErr { code := 400, status := "Bad Request",
                                error := "invalid JSON body" } }, NewStore) ∧
    patientsCollectionHandler NewStore "POST"
        (Option.some { id := 0, fullname := " ", sex := "F", birthdate := "2000-01-01",
                       address := "x" }) =
      ({ status := 400,
         body := Body.jsonErr { code := 400, status := "Bad Request",
                                error := "fullname, sex, birthdate and address are required" } },
       NewStore) ∧
    patientsCollectionHandler NewStore "POST"
        (Option.some { id := 7, fullname := "Dan", sex := "M", birthdate := "1970-01-01",
                       address := "y" }) =
      ({ status := 201,
         body := Body.json { code := 201, status := "Created",
                             data := Payload.patient { id := 1, fullname := "Dan", sex := "M",
                                                       birthdate := "1970-01-01",
                                                       address := "y" } } },
       { users := [{ id := 1, fullname := "Dan", sex := "M", birthdate := "1970-01-01",
                     address := "y" }],
         nextID := 2 }) := by
  refine ⟨?_, ?_, ?_⟩
  · exact (c4_post_validation NewStore Option.none).1 rfl
  · exact (c4_post_validation NewStore _).2.1
      { id := 0, fullname := " ", sex := "F", birthdate := "2000-01-01", address := "x" }
      rfl (by decide)
  · exact (((c4_post_validation NewStore _).2.2
      { id := 7, fullname := "Dan", sex := "M", birthdate := "1970-01-01", address := "y" }
      rfl (by decide))).trans (by decide)

/-- C7 witness: a PUT on "/patients/1" whose body fields are all blank or
whitespace is answered 400 with the store unchanged. -/
theorem c7_witness :
    patientsItemHandler NewStore "PUT" "/patients/1"
        (Option.some { id := 0, fullname := " ", sex := "", birthdate := "  ", address := "" }) =
      ({ status := 400,
         body := Body.jsonErr { code := 400, status := "Bad Request",
                                error := "at least one field required to update" } },
       NewStore) :=
  c7_put_all_empty_rejected NewStore "/patients/1" 1
    { id := 0, fullname := " ", sex := "", birthdate := "  ", address := "" }
    (by decide) (by decide)

/-- C9 witness: an OPTIONS pre-flight on an arbitrary path answers 204 with
the three headers and no body; a GET is forwarded with the same headers. -/
theorem c9_witness :
    corsMiddleware (fun _ _ => { status := 200, body := Body.empty }) "OPTIONS" "/nowhere" =
      { headers := [("Access-Control-Allow-Origin", "*"),
                    ("Access-Control-Allow-Methods", "GET, POST, PUT, DELETE, OPTIONS"),
                    ("Access-Control-Allow-Headers", "Content-Type, Authorization")],
        status := 204, body := Body.empty } ∧
    corsMiddleware (fun _ _ => { status := 200, body := Body.empty }) "GET" "/patients" =
      { headers := [("Access-Control-Allow-Origin", "*"),
                    ("Access-Control-Allow-Methods", "GET, POST, PUT, DELETE, OPTIONS"),
                    ("Access-Control-Allow-Headers", "Content-Type, Authorization")],
        status := 200, body := Body.empty } := by
  have h := c9_cors_preflight (fun _ _ => { status := 200, body := Body.empty })
    (fun _ _ => { status := 204, body := Body.empty }) "GET" "/nowhere" (by decide)
  have h2 := c9_cors_preflight (fun _ _ => { status := 200, body := Body.empty })
    (fun _ _ => { status := 204, body := Body.empty }) "GET" "/patients" (by decide)
  exact ⟨h.1, h2.2.2.trans (by decide)⟩

/-- C10 witness: a POST whose fields carry surrounding whitespace stores
and returns them verbatim. -/
theorem c10_witness :
    patientsCollectionHandler { users := [], nextID := 1 } "POST"
        (Option.some { id := 0, fullname := " Alice ", sex := " F ",
                       birthdate := " 1990-01-01 ", address := " 123 A St " }) =
      ({ status := 201,
         body := Body.json { code := 201, status := "Created",
                             data := Payload.patient { id := 1, fullname := " Alice ",
                                                       sex := " F ", birthdate := " 1990-01-01 ",
                                                       address := " 123 A St " } } },
       { users := [{ id := 1, fullname := " Alice ", sex := " F ", birthdate := " 1990-01-01 ",
                     address := " 123 A St " }],
         nextID := 2 }) := by
  exact (c10_post_preserves_raw_fields { users := [], nextID := 1 }
    { id := 0, fullname := " Alice ", sex := " F ", birthdate := " 1990-01-01 ",
      address := " 123 A St " } (by decide)).trans (by decide)
